import Mathlib

/-!
Shallow embedding of the Joe-1.0 task-orchestration core
(`src/orchestrator/orchestrator.py` and `src/orchestrator/instance.py`).
Python dictionaries are modelled as insertion-ordered association lists,
Python values as the inductive `PyVal`, and the optional Gemini oracle as
an abstract parameter carrying either a failure or an already-parsed value
(the embedding abstracts `ast.literal_eval` but keeps every validation and
fallback branch of the source).  Paths on which the Python code raises an
uncaught exception are modelled with `Except String`.
-/

/-- A Python value as it occurs in task/result dictionaries. -/
inductive PyVal where
  | pynone : PyVal
  | pybool : Bool → PyVal
  | pyint  : Int → PyVal
  | str    : String → PyVal
  | list   : List PyVal → PyVal
  | dict   : List (String × PyVal) → PyVal
deriving Repr

/-- A Python dict with string keys, as an insertion-ordered association list. -/
abbrev PyDict := List (String × PyVal)

/-- Python `d.get(k)` — first binding of `k`, if any. -/
def aget {α : Type} : List (String × α) → String → Option α
  | [], _ => Option.none
  | (k', v) :: rest, k => if k' = k then some v else aget rest k

/-- Python `d[k] = v` — replace in place if the key exists, else append at the end
(Python insertion-order semantics). -/
def aset {α : Type} : List (String × α) → String → α → List (String × α)
  | [], k, v => [(k, v)]
  | (k', v') :: rest, k, v =>
      if k' = k then (k, v) :: rest else (k', v') :: aset rest k v

/-- Python truthiness of a value. -/
def truthy : PyVal → Bool
  | .pynone => false
  | .pybool b => b
  | .pyint n => n != 0
  | .str s => !s.isEmpty
  | .list l => !l.isEmpty
  | .dict d => !d.isEmpty

/-- Truthiness of a `d.get(k)` outcome (a missing key is Python `None`). -/
def otruthy : Option PyVal → Bool
  | Option.none => false
  | some v => truthy v

/-- A single-quote character (ASCII 39), as it appears inside the source's
f-string error messages. -/
def squo : String := "\x27"

/-- Python `str()` of a value, for f-string interpolation.  Exact for the
string/None/bool/int values the claims exercise; list/dict renderings are
placeholders (never interpolated by any claim). -/
def pyStr : PyVal → String
  | .pynone => "None"
  | .pybool b => if b then "True" else "False"
  | .pyint n => toString n
  | .str s => s
  | .list _ => "[...]"
  | .dict _ => "\x7b...\x7d"

/-- Python `str()` of a `task.get("type")` outcome (missing key renders as `None`). -/
def typeStr : Option PyVal → String
  | Option.none => "None"
  | some v => pyStr v

/-- Python `repr` of a list of string keys, as `list(self.agents.keys())`
renders inside an f-string. -/
def keysRepr (ks : List String) : String :=
  "[" ++ String.intercalate ", " (ks.map (fun k => squo ++ k ++ squo)) ++ "]"

/-- Boolean: `t` is a leading segment of `s` (over character lists). -/
def listPref : List Char → List Char → Bool
  | [], _ => true
  | _ :: _, [] => false
  | a :: as, b :: bs => if a = b then listPref as bs else false

/-- Boolean: `t` occurs contiguously inside `s` (over character lists). -/
def listSub (t : List Char) : List Char → Bool
  | [] => listPref t []
  | c :: rest => listPref t (c :: rest) || listSub t rest

/-- Python's substring test `sub in s`. -/
def strHas (s sub : String) : Bool := listSub sub.data s.data

/-- ASCII lower-casing of one character (what `str.lower` does on the
ASCII-only texts the classifier keywords involve). -/
def lowerChar (c : Char) : Char :=
  if 'A' ≤ c && c ≤ 'Z' then Char.ofNat (c.toNat + 32) else c

/-- Python `text.lower()` on ASCII text. -/
def pyLower (s : String) : String := ⟨s.data.map lowerChar⟩

/-- Outcome of one `await agent.handle(sub_task)` call: a returned Result
dict, or a raised exception carrying `str(e)`. -/
inductive HOut where
  | ok : PyDict → HOut
  | exc : String → HOut

/-- The orchestrator's `self.agents` mapping: registered type id → handler
behaviour. -/
abbrev AgentMap := List (String × (PyDict → HOut))

/-- Lookup `self.agents.get(agent_type)`: the keys are strings, so only a string
task type can match (Python `None` or a non-string value never does). -/
def lookupAgent (ag : AgentMap) : Option PyVal → Option (PyDict → HOut)
  | some (PyVal.str s) => aget ag s
  | _ => Option.none

/-- An oracle (Gemini) interaction outcome, abstracted post-parse: `failure`
covers a raised call or an `ast.literal_eval` error; `value v` is the parsed
Python value of the (fence-stripped) response text. -/
inductive OracleOut where
  | failure : OracleOut
  | value : PyVal → OracleOut

/-- Rule-based fallback of `classify_task`: fallback choice of type
(orchestrator.py lines 190-201): fixed-priority keyword scan of the
lower-cased text, else the configured default type. -/
def ruleType (dft text : String) : String :=
  let lowered := pyLower text
  if strHas lowered "search" then "web_search"
  else if strHas lowered "data" || strHas lowered "fetch" then "data_retrieval"
  else if strHas lowered "report" then "report_generation"
  else if strHas lowered "dashboard" || strHas lowered "analy" then "analysis_dashboard"
  else dft

/-- The fallback task dictionary built at orchestrator.py lines 202-207. -/
def fallbackTask (dft text : String) (user channel : PyVal) : PyDict :=
  [("type", PyVal.str (ruleType dft text)),
   ("payload", PyVal.dict [("query", PyVal.str text)]),
   ("user", user),
   ("context", PyVal.dict [("channel", channel)])]

/-- Embeds `Orchestrator.classify_task` (orchestrator.py lines 154-209).  `oracle`
is `none` when no Gemini model is configured; otherwise it carries the
oracle interaction's outcome.  A parsed response is accepted only if it is a
dict containing both `type` and `payload`; `user` and `context` are then
attached via `dict.update`; every other outcome falls back to the rule-based
classification. -/
def classify_task (dft : String) (oracle : Option OracleOut)
    (text : String) (user channel : PyVal) : PyDict :=
  match oracle with
  | some (OracleOut.value (PyVal.dict d)) =>
      if (aget d "type").isSome && (aget d "payload").isSome then
        aset (aset d "user" user) "context" (PyVal.dict [("channel", channel)])
      else fallbackTask dft text user channel
  | some (OracleOut.value _) => fallbackTask dft text user channel
  | some OracleOut.failure => fallbackTask dft text user channel
  | Option.none => fallbackTask dft text user channel

/-- Checks that every element of the parsed oracle list is a dict, returning
them as `PyDict`s (the validation at orchestrator.py line 318). -/
def allDicts : List PyVal → Option (List PyDict)
  | [] => some []
  | PyVal.dict d :: rest => (allDicts rest).map (fun l => d :: l)
  | _ :: _ => Option.none

/-- Embeds `Orchestrator.decompose_task` (orchestrator.py lines 287-325): identity
`[task]` without an oracle; with an oracle, the parsed response is returned
as-is when it is a list whose elements are all dicts, and every other
outcome (call failure, parse failure, non-list, non-dict element) falls back
to `[task]`. -/
def decompose_task (oracle : Option OracleOut) (task : PyDict) : List PyDict :=
  match oracle with
  | Option.none => [task]
  | some OracleOut.failure => [task]
  | some (OracleOut.value v) =>
      match v with
      | PyVal.list items =>
          match allDicts items with
          | some sts => sts
          | Option.none => [task]
      | _ => [task]

/-- Evaluation of `sub_tasks[idx]["payload"].get("input")`'s truthiness for
one sub-task (orchestrator.py line 229): a missing `payload` key raises
`KeyError`, a non-dict `payload` value has no `.get` and raises
`AttributeError`; otherwise the result is the truthiness of
`payload.get("input")`. -/
def payloadInputFlag (st : PyDict) : Except String Bool :=
  match aget st "payload" with
  | Option.none => Except.error "KeyError: payload"
  | some (PyVal.dict p) => Except.ok (otruthy (aget p "input"))
  | some _ => Except.error "AttributeError: get"

/-- The tail of the `all(...)` generator at orchestrator.py line 229, over
the sub-tasks at index > 0.  Python's `all` short-circuits: it stops (with
`False`) at the first truthy `payload.get("input")`, so later sub-tasks are
not evaluated (and cannot raise). -/
def crcTail : List PyDict → Except String Bool
  | [] => Except.ok true
  | st :: rest =>
      match payloadInputFlag st with
      | Except.error e => Except.error e
      | Except.ok true => Except.ok false
      | Except.ok false => crcTail rest

/-- Embeds `can_run_concurrent` (orchestrator.py line 229).  The generator's
condition is vacuously true at index 0, so only the tail is examined. -/
def canRunConcurrent : List PyDict → Except String Bool
  | [] => Except.ok true
  | _ :: rest => crcTail rest

/-- The strategy choice at orchestrator.py line 230:
`can_run_concurrent and len(sub_tasks) > 1`. -/
def strategyConcurrent (sts : List PyDict) : Except String Bool :=
  (canRunConcurrent sts).map (fun c => c && decide (sts.length > 1))

/-- The chaining injection at orchestrator.py lines 260-262:
`sub_task = sub_task.copy(); sub_task.setdefault("payload", dict());
sub_task["payload"]["input"] = prev_result`.  `dict.copy` is shallow, so
when the template already has a `payload` dict, the copy's `payload` is the
same object and the `input` assignment writes through to the template;
only when the template lacks a `payload` key does `setdefault` create a
fresh dict.  Returns `(dispatched sub-task, template after the injection)`.
A non-dict `payload` value does not support item assignment (`TypeError`). -/
def chainInject (st : PyDict) (prev : PyDict) : Except String (PyDict × PyDict) :=
  match aget st "payload" with
  | Option.none =>
      Except.ok (aset st "payload" (PyVal.dict [("input", PyVal.dict prev)]), st)
  | some (PyVal.dict p) =>
      let p2 := aset p "input" (PyVal.dict prev)
      Except.ok (aset st "payload" (PyVal.dict p2), aset st "payload" (PyVal.dict p2))
  | some _ => Except.error "TypeError: item assignment"

/-- The guard at orchestrator.py line 259: injection happens only when
`idx > 0 and prev_result is not None`. -/
def injectStep (idx : Nat) (prev : Option PyDict) (st : PyDict) :
    Except String (PyDict × PyDict) :=
  match prev with
  | some p => if idx > 0 then chainInject st p else Except.ok (st, st)
  | Option.none => Except.ok (st, st)

/-- The error Result recorded when no agent is registered for a sub-task's
type (orchestrator.py lines 239 and 257). -/
def noAgentResult (tv : Option PyVal) : PyDict :=
  [("error", PyVal.str ("No agent for type: " ++ typeStr tv))]

/-- The error Result recorded when an agent raises
(orchestrator.py lines 246 and 272). -/
def excResult (tv : Option PyVal) (msg : String) (st : PyDict) : PyDict :=
  [("error", PyVal.str ("Agent " ++ squo ++ typeStr tv ++ squo ++ " failed: " ++ msg)),
   ("sub_task", PyVal.dict st)]

/-- Trace of a sequential run: the per-step Results, the dict actually
passed to each step's handler (`none` when no agent was found), each step's
template sub-task after any aliased mutation, and the final `prev_result`. -/
structure SeqOut where
  results : List PyDict
  dispatched : List (Option PyDict)
  templates : List PyDict
  prevFinal : Option PyDict

/-- Prepends one step's record to a sequential trace. -/
def seqCons (r : PyDict) (d : Option PyDict) (t : PyDict) (o : SeqOut) : SeqOut :=
  ⟨r :: o.results, d :: o.dispatched, t :: o.templates, o.prevFinal⟩

/-- The sequential loop of `handle_task` (orchestrator.py lines 250-273),
carrying the running index and `prev_result`.  A missing agent records an
error and leaves `prev_result` unchanged (`continue`); a handler exception
records an error and clears `prev_result`; a handler Result is recorded and
becomes the new `prev_result`. -/
def runSeqAux (ag : AgentMap) (idx : Nat) (prev : Option PyDict) :
    List PyDict → Except String SeqOut
  | [] => Except.ok ⟨[], [], [], prev⟩
  | st :: rest =>
      match lookupAgent ag (aget st "type") with
      | Option.none =>
          (runSeqAux ag (idx + 1) prev rest).map
            (seqCons (noAgentResult (aget st "type")) Option.none st)
      | some h =>
          match injectStep idx prev st with
          | Except.error e => Except.error e
          | Except.ok (st2, tAfter) =>
              match h st2 with
              | HOut.ok r =>
                  (runSeqAux ag (idx + 1) (some r) rest).map
                    (seqCons r (some st2) tAfter)
              | HOut.exc m =>
                  (runSeqAux ag (idx + 1) Option.none rest).map
                    (seqCons (excResult (aget st "type") m st2) (some st2) tAfter)

/-- One concurrent dispatch (`run_agent`, orchestrator.py lines 233-246):
no injection, errors captured per sub-task. -/
def runAgentConc (ag : AgentMap) (st : PyDict) : PyDict :=
  match lookupAgent ag (aget st "type") with
  | Option.none => noAgentResult (aget st "type")
  | some h =>
      match h st with
      | HOut.ok r => r
      | HOut.exc m => excResult (aget st "type") m st

/-- Python `"error" in r` for a Result dict. -/
def hasError (r : PyDict) : Bool := (aget r "error").isSome

/-- The composite Result built at orchestrator.py line 285. -/
def compositeResult (results : List PyDict) : PyDict :=
  [("final_status", PyVal.str "Completed with errors or multiple results"),
   ("results", PyVal.list (results.map PyVal.dict))]

/-- The aggregation at orchestrator.py lines 274-285: empty → error Result;
a single error-free Result → returned unwrapped; all Results error-free →
the last one; otherwise the composite Result. -/
def aggregate : List PyDict → PyDict
  | [] => [("error", PyVal.str "No results generated from task execution.")]
  | r0 :: rest =>
      if rest.isEmpty && !hasError r0 then r0
      else if (r0 :: rest).all (fun r => !hasError r) then (r0 :: rest).getLastD r0
      else compositeResult (r0 :: rest)

/-- The body of `handle_task` after decomposition (orchestrator.py lines
226-285): strategy selection (which can raise while inspecting payloads),
then concurrent (`asyncio.gather`, order-preserving) or sequential
execution, then aggregation. -/
def executeSubTasks (ag : AgentMap) (sts : List PyDict) : Except String PyDict :=
  match strategyConcurrent sts with
  | Except.error e => Except.error e
  | Except.ok true => Except.ok (aggregate (sts.map (runAgentConc ag)))
  | Except.ok false =>
      match runSeqAux ag 0 Option.none sts with
      | Except.error e => Except.error e
      | Except.ok o => Except.ok (aggregate o.results)

/-- Embeds `Orchestrator.handle_task` (orchestrator.py lines 211-285): decompose
when an oracle (Gemini model) is configured, else run `[task]`; the body has
no blanket exception handler, so a raise inside strategy selection or
injection propagates to the caller (`Except.error`). -/
def handle_task (ag : AgentMap) (oracle : Option OracleOut) (task : PyDict) :
    Except String PyDict :=
  executeSubTasks ag (decompose_task oracle task)

/-- The routing-failure message of orchestrator.py line 117, built by the
f-string `f"Sorry, I couldn't find an agent for your request (type:
'{agent_type}'). Available agents: {list(self.agents.keys())}"`. -/
def routeNoAgentMsg (tv : Option PyVal) (ks : List String) : String :=
  "Sorry, I couldn" ++ squo ++ "t find an agent for your request (type: " ++ squo ++
    typeStr tv ++ squo ++ "). Available agents: " ++ keysRepr ks

/-- Embeds `Orchestrator.route_task` in the no-oracle configuration
(orchestrator.py lines 88-121 with `self.gemini_model = None`, so lines
95-101 are skipped): look up the handler by the task's `type`; absence
yields the `AgentNotFound`-style Result naming the type and listing all
registered type ids; a handler exception yields the `HandlerFailure`-style
Result with `error` and `details`. -/
def route_task (ag : AgentMap) (task : PyDict) : PyDict :=
  let tv := aget task "type"
  match lookupAgent ag tv with
  | some h =>
      match h task with
      | HOut.ok r => r
      | HOut.exc m =>
          [("error", PyVal.str ("Sorry, the agent " ++ squo ++ typeStr tv ++ squo ++
             " encountered an issue. Please try again later.")),
           ("details", PyVal.str m)]
  | Option.none =>
      [("error", PyVal.str (routeNoAgentMsg tv (ag.map Prod.fst)))]

/-- The concrete agent objects wired in `src/orchestrator/instance.py`:
the four statically constructed agents, the Gemini-backed
`LLMResponseAgent`, and the `DummyLLMResponseAgent` fallback. -/
inductive AgentTag where
  | webSearch | dataRetrieval | reportGeneration | analysisDashboard
  | llmGemini | llmDummy
deriving DecidableEq, Repr

/-- The `agents` dictionary as built at instance.py lines 12-34, before the
orchestrator is constructed: each slot holds its agent instance, except
`llm_response`, whose instance is `None` (it needs `orchestrator.gemini_model`). -/
def instanceAgents : List (String × Option AgentTag) :=
  [("web_search", some AgentTag.webSearch),
   ("data_retrieval", some AgentTag.dataRetrieval),
   ("report_generation", some AgentTag.reportGeneration),
   ("analysis_dashboard", some AgentTag.analysisDashboard),
   ("llm_response", Option.none)]

/-- The wiring at instance.py lines 40-51, run immediately after
`Orchestrator(...)` returns: the `llm_response` slot is assigned the
Gemini-backed agent when `orchestrator.gemini_model` is set, and the dummy
fallback agent otherwise. -/
def wireAgents (geminiAvailable : Bool) : List (String × Option AgentTag) :=
  aset instanceAgents "llm_response"
    (some (if geminiAvailable then AgentTag.llmGemini else AgentTag.llmDummy))

/-- The per-step Results of a sequential run (empty on a raise). -/
def seqResults (e : Except String SeqOut) : List PyDict :=
  match e with
  | Except.ok o => o.results
  | Except.error _ => []

/-- The dicts actually handed to handlers in a sequential run. -/
def seqDispatched (e : Except String SeqOut) : List (Option PyDict) :=
  match e with
  | Except.ok o => o.dispatched
  | Except.error _ => []

/-- The template sub-tasks after a sequential run (reflecting any aliased
payload mutation). -/
def seqTemplates (e : Except String SeqOut) : List PyDict :=
  match e with
  | Except.ok o => o.templates
  | Except.error _ => []

/-- The binding of key `k` inside the payload of the `i`-th dispatched
sub-task of a sequential run. -/
def dispatchedPayloadKey (e : Except String SeqOut) (i : Nat) (k : String) :
    Option PyVal :=
  match (seqDispatched e).get? i with
  | some (some d) =>
      match aget d "payload" with
      | some (PyVal.dict p) => aget p k
      | _ => Option.none
  | _ => Option.none

/-! ### Helper lemmas about the embedding's primitives -/

theorem aget_aset_self {α : Type} (d : List (String × α)) (k : String) (v : α) :
    aget (aset d k v) k = some v := by
  induction d with
  | nil => simp [aset, aget]
  | cons hd tl ih =>
      obtain ⟨k', v'⟩ := hd
      by_cases h : k' = k
      · simp [aset, aget, h]
      · simp [aset, aget, h, ih]

theorem aget_aset_ne {α : Type} (d : List (String × α)) (k k' : String) (v : α)
    (h : k' ≠ k) : aget (aset d k v) k' = aget d k' := by
  induction d with
  | nil => simp [aset, aget, Ne.symm h]
  | cons hd tl ih =>
      obtain ⟨k0, v0⟩ := hd
      by_cases h0 : k0 = k
      · subst h0
        simp [aset, aget, Ne.symm h]
      · simp [aset, aget, h0, ih]

theorem listPref_self_append (t b : List Char) : listPref t (t ++ b) = true := by
  induction t with
  | nil => simp [listPref]
  | cons a as ih => simp [listPref, ih]

theorem listSub_of_pref (t s : List Char) (h : listPref t s = true) :
    listSub t s = true := by
  cases s with
  | nil =>
      cases t with
      | nil => rfl
      | cons a as => simp [listPref] at h
  | cons c rest => simp [listSub, h]

theorem listSub_mid (a t b : List Char) : listSub t (a ++ t ++ b) = true := by
  induction a with
  | nil =>
      simpa using listSub_of_pref t (t ++ b) (listPref_self_append t b)
  | cons x xs ih =>
      simp only [List.cons_append, listSub, Bool.or_eq_true]
      exact Or.inr (by simpa [List.append_assoc] using ih)

/-- Any string of the shape `a ++ t ++ b` contains `t` as a substring. -/
theorem strHas_mid (a t b : String) : strHas (a ++ t ++ b) t = true := by
  have h1 : (a ++ t ++ b).data = a.data ++ t.data ++ b.data := by
    rw [String.data_append, String.data_append]
  simp only [strHas, h1]
  exact listSub_mid a.data t.data b.data

/-! ### Sanity checks of the embedding on concrete inputs -/

example : aget [("a", PyVal.str "x"), ("b", PyVal.pynone)] "b" = some PyVal.pynone := rfl
example : aset [("a", PyVal.pyint 1)] "a" (PyVal.pyint 2) = [("a", PyVal.pyint 2)] := rfl
example : strHas "please search now" "search" = true := rfl
example : pyLower "Search ME" = "search me" := rfl
example : PyVal.str "a" ≠ PyVal.str "b" := by simp
example : [("payload", PyVal.dict [])] ≠ ([("payload", PyVal.dict [("input", PyVal.pynone)])] : PyDict) := by simp
example :
    handle_task [("a", fun _ => HOut.ok [("ok", PyVal.pyint 1)])]
      (some (OracleOut.value (PyVal.list
        [PyVal.dict [("type", PyVal.str "a"), ("payload", PyVal.dict [])],
         PyVal.dict [("type", PyVal.str "a")]])))
      [("type", PyVal.str "t")] = Except.error "KeyError: payload" := rfl
example :
    decompose_task (some (OracleOut.value (PyVal.list []))) [("type", PyVal.str "t")] = [] := rfl
example :
    handle_task [] Option.none [("type", PyVal.str "zzz")] =
      Except.ok (compositeResult [[("error", PyVal.str "No agent for type: zzz")]]) := rfl
example :
    route_task [("a", fun _ => HOut.ok [])] [("type", PyVal.str "zzz")] =
      [("error", PyVal.str ("Sorry, I couldn" ++ squo ++
        "t find an agent for your request (type: " ++ squo ++ "zzz" ++ squo ++
        "). Available agents: [" ++ squo ++ "a" ++ squo ++ "]"))] := rfl

/-! ### Claims -/

/-- C1: the claim states that `handle_task` is total for every decomposition
outcome, including sub-tasks that lack a `payload` key.  It is not: with an
oracle configured, a decomposition of two sub-tasks whose second element has
no `payload` key makes the strategy-selection expression
`sub_tasks[idx]["payload"].get("input")` (orchestrator.py line 229) raise an
uncaught `KeyError` that propagates past the `handle_task` boundary.  This
theorem evaluates the embedded code at that failing input. -/
theorem C1_keyerror_eval :
    handle_task [("a", fun _ => HOut.ok [("ok", PyVal.pyint 1)])]
      (some (OracleOut.value (PyVal.list
        [PyVal.dict [("type", PyVal.str "a"), ("payload", PyVal.dict [])],
         PyVal.dict [("type", PyVal.str "a")]])))
      [("type", PyVal.str "t")] = Except.error "KeyError: payload" := rfl

/-- C2 counterexample: the claim says `decompose_task` always returns a list
of length at least 1.  An oracle response that parses to the valid Python
literal `[]` passes the validation at orchestrator.py line 318 (`a list all
of whose elements are dicts`) and is returned as-is, so the result has
length 0. -/
theorem C2_counterexample :
    ¬ 1 ≤ (decompose_task (some (OracleOut.value (PyVal.list [])))
            [("type", PyVal.str "t")]).length := by
  decide

/-- C2 (amended): `decompose_task` returns `[task]` whenever no oracle is
configured or the oracle outcome fails parsing or validation; when the
oracle returns a valid list of dicts that list is returned as-is, so the
only way to obtain an empty result is an oracle response parsing to the
empty list. -/
theorem C2_amended :
    (∀ (task : PyDict) (oracle : Option OracleOut),
       decompose_task oracle task = [task] ∨
       ∃ items sts, oracle = some (OracleOut.value (PyVal.list items)) ∧
         allDicts items = some sts ∧ decompose_task oracle task = sts) ∧
    (∀ (task : PyDict) (oracle : Option OracleOut),
       decompose_task oracle task = [] →
       oracle = some (OracleOut.value (PyVal.list []))) := by
  constructor
  · intro task oracle
    match oracle with
    | Option.none => exact Or.inl rfl
    | some OracleOut.failure => exact Or.inl rfl
    | some (OracleOut.value v) =>
        match v with
        | PyVal.pynone | PyVal.pybool _ | PyVal.pyint _ | PyVal.str _ | PyVal.dict _ =>
            exact Or.inl rfl
        | PyVal.list items =>
            match h : allDicts items with
            | Option.none => exact Or.inl (by simp [decompose_task, h])
            | some sts => exact Or.inr ⟨items, sts, rfl, h, by simp [decompose_task, h]⟩
  · intro task oracle hempty
    match oracle with
    | Option.none => simp [decompose_task] at hempty
    | some OracleOut.failure => simp [decompose_task] at hempty
    | some (OracleOut.value v) =>
        match v with
        | PyVal.pynone | PyVal.pybool _ | PyVal.pyint _ | PyVal.str _ | PyVal.dict _ =>
            simp [decompose_task] at hempty
        | PyVal.list items =>
            match items with
            | [] => rfl
            | PyVal.dict d :: rest =>
                simp only [decompose_task, allDicts] at hempty
                cases h : allDicts rest with
                | none => simp [h] at hempty
                | some sts => simp [h] at hempty
            | PyVal.pynone :: rest | PyVal.pybool _ :: rest | PyVal.pyint _ :: rest
            | PyVal.str _ :: rest | PyVal.list _ :: rest =>
                simp [decompose_task, allDicts] at hempty

/-- C2 witness: the amended theorem applied at the empty-list oracle
response. -/
theorem C2_witness :
    decompose_task (some (OracleOut.value (PyVal.list []))) [("type", PyVal.str "t")] = [] ∧
    some (OracleOut.value (PyVal.list [])) = some (OracleOut.value (PyVal.list [])) :=
  ⟨rfl, C2_amended.2 [("type", PyVal.str "t")] (some (OracleOut.value (PyVal.list []))) rfl⟩

/-- C5 counterexample: the claim says the composite Result carries a
`status` field equal to `"completed_with_errors_or_multiple"`.  The code
builds `{"final_status": "Completed with errors or multiple results",
"results": [...]}` (orchestrator.py line 285): there is no `status` key at
all, and the status-carrying key holds a different string. -/
theorem C5_counterexample :
    aget (aggregate [[("error", PyVal.str "x")]]) "status" = Option.none ∧
    aget (aggregate [[("error", PyVal.str "x")]]) "final_status" =
      some (PyVal.str "Completed with errors or multiple results") ∧
    aget (aggregate [[("error", PyVal.str "x")]]) "final_status" ≠
      some (PyVal.str "completed_with_errors_or_multiple") := by
  refine ⟨rfl, rfl, ?_⟩
  intro h
  simp [aggregate, hasError, aget, compositeResult] at h

/-- C5 (amended): aggregation behaves as claimed except for the composite's
field naming — zero Results yield the `NoResultsProduced`-style error
Result; exactly one error-free Result is returned unwrapped; when every
Result is error-free only the last is returned; any error present yields the
composite Result whose status key is `final_status` with value
`"Completed with errors or multiple results"` and whose `results` list
preserves every Result in order. -/
theorem C5_amended :
    (aggregate [] = [("error", PyVal.str "No results generated from task execution.")]) ∧
    (∀ r : PyDict, hasError r = false → aggregate [r] = r) ∧
    (∀ (r0 : PyDict) (rest : List PyDict),
       ((r0 :: rest).all fun r => !hasError r) = true →
       aggregate (r0 :: rest) = (r0 :: rest).getLastD r0) ∧
    (∀ rs : List PyDict, rs.any hasError = true → aggregate rs = compositeResult rs) := by
  refine ⟨rfl, ?_, ?_, ?_⟩
  · intro r h
    simp [aggregate, h]
  · intro r0 rest hall
    cases rest with
    | nil =>
        simp only [List.all_cons, List.all_nil, Bool.and_true, Bool.not_eq_true'] at hall
        simp [aggregate, hall, List.getLastD]
    | cons r1 rest' =>
        simp only [List.all_cons, Bool.and_eq_true, Bool.not_eq_true'] at hall
        obtain ⟨h0, h1, hrest⟩ := hall
        simp [aggregate, h0, h1, hrest, List.all_eq_true, Bool.not_eq_true']
  · intro rs hany
    cases rs with
    | nil => simp at hany
    | cons r0 rest =>
        have hnotall : ((r0 :: rest).all fun r => !hasError r) = false := by
          rcases List.any_eq_true.mp hany with ⟨r, hr, hre⟩
          exact List.all_eq_false.mpr ⟨r, hr, by simp [hre]⟩
        cases rest with
        | nil =>
            simp only [List.any_cons, List.any_nil, Bool.or_false] at hany
            simp [aggregate, hany]
        | cons r1 rest' =>
            simp [aggregate, hnotall]

/-- C5 witness: the amended aggregation theorem applied at concrete Result
lists. -/
theorem C5_witness :
    aggregate [[("ok", PyVal.pyint 1)]] = [("ok", PyVal.pyint 1)] ∧
    aggregate [[("a", PyVal.pyint 1)], [("b", PyVal.pyint 2)]] =
      ([[("a", PyVal.pyint 1)], [("b", PyVal.pyint 2)]] : List PyDict).getLastD
        [("a", PyVal.pyint 1)] ∧
    aggregate [[("error", PyVal.str "x")]] = compositeResult [[("error", PyVal.str "x")]] :=
  ⟨C5_amended.2.1 [("ok", PyVal.pyint 1)] rfl,
   C5_amended.2.2.1 [("a", PyVal.pyint 1)] [[("b", PyVal.pyint 2)]] rfl,
   C5_amended.2.2.2 [[("error", PyVal.str "x")]] rfl⟩

/-- Modelled from the spec's words, for the refinement comparison of C7:
CONCURRENT iff more than one sub-task and no sub-task at index > 0
pre-populates the chaining key (`"input"` present in its payload). -/
def specStrategyConcurrent (sts : List PyDict) : Prop :=
  sts.length > 1 ∧
  ∀ i st p, 0 < i → sts.get? i = some st →
    aget st "payload" = some (PyVal.dict p) → aget p "input" = Option.none

/-- Characterization: `crcTail` is `ok true` exactly when every examined payload's `input`
value is falsy (Python truthiness, so a present-but-falsy value counts as
absent), provided each tail sub-task's `payload` is a dict. -/
theorem crcTail_ok_true_iff (rest : List PyDict)
    (hp : ∀ st ∈ rest, ∃ p, aget st "payload" = some (PyVal.dict p)) :
    (crcTail rest = Except.ok true ↔
      ∀ st ∈ rest, ∀ p, aget st "payload" = some (PyVal.dict p) →
        otruthy (aget p "input") = false) := by
  induction rest with
  | nil => simp [crcTail]
  | cons st rest ih =>
      obtain ⟨p, hpd⟩ := hp st (List.mem_cons_self st rest)
      have ihr := ih (fun s hs => hp s (List.mem_cons_of_mem st hs))
      constructor
      · intro hok s hs q hq
        have htail : otruthy (aget p "input") = false →
            crcTail (st :: rest) = crcTail rest := by
          intro hev
          simp [crcTail, payloadInputFlag, hpd, hev]
        rcases List.mem_cons.mp hs with hh | ht
        · subst hh
          have hpq : p = q := by
            have h1 := Option.some.inj (hpd.symm.trans hq)
            injection h1
          subst hpq
          simp only [crcTail, payloadInputFlag, hpd] at hok
          cases hev : otruthy (aget p "input") with
          | false => rfl
          | true => rw [hev] at hok; simp at hok
        · cases hev : otruthy (aget p "input") with
          | true =>
              simp only [crcTail, payloadInputFlag, hpd, hev] at hok
              simp at hok
          | false =>
              rw [htail hev] at hok
              exact ihr.mp hok s ht q hq
      · intro hall
        have h0 := hall st (List.mem_cons_self st rest) p hpd
        have hrest : crcTail rest = Except.ok true :=
          ihr.mpr (fun s hs q hq => hall s (List.mem_cons_of_mem st hs) q hq)
        simp [crcTail, payloadInputFlag, hpd, h0, hrest]

/-- C7 counterexample: the second sub-task pre-populates the chaining key
`"input"` in its payload (with the falsy value `""`), so the claim's
selection rule demands SEQUENTIAL; the code tests Python truthiness of
`payload.get("input")` (orchestrator.py line 229), finds it falsy, and
selects CONCURRENT. -/
theorem C7_counterexample :
    strategyConcurrent
      [[("type", PyVal.str "a"), ("payload", PyVal.dict [])],
       [("type", PyVal.str "b"), ("payload", PyVal.dict [("input", PyVal.str "")])]] =
      Except.ok true ∧
    ¬ specStrategyConcurrent
      [[("type", PyVal.str "a"), ("payload", PyVal.dict [])],
       [("type", PyVal.str "b"), ("payload", PyVal.dict [("input", PyVal.str "")])]] := by
  constructor
  · rfl
  · rintro ⟨-, h⟩
    have h2 := h 1 [("type", PyVal.str "b"), ("payload", PyVal.dict [("input", PyVal.str "")])]
      [("input", PyVal.str "")] (by decide) rfl rfl
    rw [show aget ([("input", PyVal.str "")] : PyDict) "input" = some (PyVal.str "") from rfl] at h2
    exact Option.noConfusion h2

/-- C7 (amended): when every sub-task after the first carries a dict
payload, the code selects CONCURRENT iff there is more than one sub-task
and every sub-task at index > 0 has a falsy (absent, or present but falsy
under Python truthiness) `input` value in its payload; in every other case
it selects SEQUENTIAL. -/
theorem C7_amended (hd : PyDict) (rest : List PyDict)
    (hp : ∀ st ∈ rest, ∃ p, aget st "payload" = some (PyVal.dict p)) :
    (strategyConcurrent (hd :: rest) = Except.ok true ↔
      (rest ≠ [] ∧ ∀ st ∈ rest, ∀ p, aget st "payload" = some (PyVal.dict p) →
        otruthy (aget p "input") = false)) := by
  have hiff := crcTail_ok_true_iff rest hp
  constructor
  · intro hok
    simp only [strategyConcurrent, canRunConcurrent] at hok
    cases hc : crcTail rest with
    | error e => rw [hc] at hok; simp [Except.map] at hok
    | ok b =>
        rw [hc] at hok
        simp only [Except.map, Except.ok.injEq] at hok
        have hb : b = true := by
          cases b with
          | true => rfl
          | false => simp at hok
        subst hb
        have hok2 : 0 < rest.length := by simpa using hok
        refine ⟨?_, hiff.mp hc⟩
        intro hnil
        subst hnil
        simp at hok2
  · rintro ⟨hnil, hall⟩
    have hc : crcTail rest = Except.ok true := hiff.mpr hall
    cases rest with
    | nil => exact absurd rfl hnil
    | cons a b =>
        simp only [strategyConcurrent, canRunConcurrent, hc, Except.map, Except.ok.injEq,
          Bool.true_and, List.length_cons]
        simp

/-- C7 witness: the amended selection theorem applied at two sub-tasks whose
tail payload has no `input` key. -/
theorem C7_witness :
    strategyConcurrent
      [[("type", PyVal.str "a"), ("payload", PyVal.dict [])],
       [("type", PyVal.str "b"), ("payload", PyVal.dict [])]] = Except.ok true :=
  (C7_amended [("type", PyVal.str "a"), ("payload", PyVal.dict [])]
    [[("type", PyVal.str "b"), ("payload", PyVal.dict [])]]
    (by intro st hst; rw [List.mem_singleton] at hst; subst hst; exact ⟨[], rfl⟩)).mpr
    ⟨by simp, by
      intro st hst p hpd
      rw [List.mem_singleton] at hst
      subst hst
      cases hpd
      rfl⟩

/-- A string whose character data splits as `a ++ t ++ b` contains `t`. -/
theorem strHas_of_data (s t : String) (a b : List Char)
    (h : s.data = a ++ (t.data ++ b)) : strHas s t = true := by
  have hmid := listSub_mid a t.data b
  simp only [strHas, h]
  simpa [List.append_assoc] using hmid

/-- C8 counterexample: for an unregistered type the Engine's dispatch
records `{"error": "No agent for type: zzz"}` (orchestrator.py lines 239 and
257) — the error text contains the type value but, contrary to the claim,
does not list the known type ids (here `['a']`); only the Router's message
does. -/
theorem C8_counterexample :
    handle_task [("a", fun _ => HOut.ok [("ok", PyVal.pyint 0)])] Option.none
      [("type", PyVal.str "zzz")] =
      Except.ok (compositeResult [[("error", PyVal.str "No agent for type: zzz")]]) ∧
    strHas "No agent for type: zzz" "zzz" = true ∧
    strHas "No agent for type: zzz" (keysRepr ["a"]) = false := ⟨rfl, rfl, rfl⟩

/-- C8 (amended): for a task whose string type is unregistered, neither the
Router nor the Engine's dispatch invokes any handler; the Router returns an
error Result whose text contains the literal type value and the full list of
known type ids, while the Engine's dispatch records an error Result whose
text contains the literal type value only (no listing of known ids). -/
theorem C8_amended (ag : AgentMap) (task : PyDict) (s : String)
    (htype : aget task "type" = some (PyVal.str s))
    (hmiss : aget ag s = Option.none) :
    route_task ag task =
      [("error", PyVal.str (routeNoAgentMsg (some (PyVal.str s)) (ag.map Prod.fst)))] ∧
    strHas (routeNoAgentMsg (some (PyVal.str s)) (ag.map Prod.fst)) s = true ∧
    strHas (routeNoAgentMsg (some (PyVal.str s)) (ag.map Prod.fst))
      (keysRepr (ag.map Prod.fst)) = true ∧
    runAgentConc ag task = [("error", PyVal.str ("No agent for type: " ++ s))] ∧
    strHas ("No agent for type: " ++ s) s = true := by
  refine ⟨?_, ?_, ?_, ?_, ?_⟩
  · simp [route_task, htype, lookupAgent, hmiss]
  · exact strHas_of_data _ _
      ("Sorry, I couldn".data ++ squo.data ++
        "t find an agent for your request (type: ".data ++ squo.data)
      (squo.data ++ "). Available agents: ".data ++ (keysRepr (ag.map Prod.fst)).data)
      (by simp [routeNoAgentMsg, typeStr, pyStr, String.data_append, List.append_assoc])
  · exact strHas_of_data _ _
      ("Sorry, I couldn".data ++ squo.data ++
        "t find an agent for your request (type: ".data ++ squo.data ++
        s.data ++ squo.data ++ "). Available agents: ".data)
      []
      (by simp [routeNoAgentMsg, typeStr, pyStr, String.data_append, List.append_assoc])
  · simp [runAgentConc, htype, lookupAgent, hmiss, noAgentResult, typeStr, pyStr]
  · exact strHas_of_data _ _ "No agent for type: ".data []
      (by simp [String.data_append])

/-- C8 witness: the amended routing/dispatch theorem applied at a concrete
registry with one agent and the unregistered type `"zzz"`. -/
theorem C8_witness :
    route_task [("a", fun _ => HOut.ok [])] [("type", PyVal.str "zzz")] =
      [("error", PyVal.str (routeNoAgentMsg (some (PyVal.str "zzz")) ["a"]))] ∧
    strHas (routeNoAgentMsg (some (PyVal.str "zzz")) ["a"]) "zzz" = true ∧
    strHas (routeNoAgentMsg (some (PyVal.str "zzz")) ["a"]) (keysRepr ["a"]) = true ∧
    runAgentConc [("a", fun _ => HOut.ok [])] [("type", PyVal.str "zzz")] =
      [("error", PyVal.str ("No agent for type: " ++ "zzz"))] ∧
    strHas ("No agent for type: " ++ "zzz") "zzz" = true :=
  C8_amended [("a", fun _ => HOut.ok [])] [("type", PyVal.str "zzz")] "zzz" rfl rfl

/-- C9: with no oracle configured, `classify_task` applies the exact
fallback mapping in fixed priority order on the lower-cased text —
"search" → `web_search`; else "data"/"fetch" → `data_retrieval`; else
"report" → `report_generation`; else "dashboard"/"analy" →
`analysis_dashboard`; else the configured default type — and the returned
task's `payload.query` is the input text with `user` and the channel
context passed through verbatim. -/
theorem C9_classifier_fallback (dft text : String) (user channel : PyVal) :
    (strHas (pyLower text) "search" = true →
      aget (classify_task dft Option.none text user channel) "type" =
        some (PyVal.str "web_search")) ∧
    (strHas (pyLower text) "search" = false →
     (strHas (pyLower text) "data" || strHas (pyLower text) "fetch") = true →
      aget (classify_task dft Option.none text user channel) "type" =
        some (PyVal.str "data_retrieval")) ∧
    (strHas (pyLower text) "search" = false →
     (strHas (pyLower text) "data" || strHas (pyLower text) "fetch") = false →
     strHas (pyLower text) "report" = true →
      aget (classify_task dft Option.none text user channel) "type" =
        some (PyVal.str "report_generation")) ∧
    (strHas (pyLower text) "search" = false →
     (strHas (pyLower text) "data" || strHas (pyLower text) "fetch") = false →
     strHas (pyLower text) "report" = false →
     (strHas (pyLower text) "dashboard" || strHas (pyLower text) "analy") = true →
      aget (classify_task dft Option.none text user channel) "type" =
        some (PyVal.str "analysis_dashboard")) ∧
    (strHas (pyLower text) "search" = false →
     (strHas (pyLower text) "data" || strHas (pyLower text) "fetch") = false →
     strHas (pyLower text) "report" = false →
     (strHas (pyLower text) "dashboard" || strHas (pyLower text) "analy") = false →
      aget (classify_task dft Option.none text user channel) "type" =
        some (PyVal.str dft)) ∧
    aget (classify_task dft Option.none text user channel) "payload" =
      some (PyVal.dict [("query", PyVal.str text)]) ∧
    aget (classify_task dft Option.none text user channel) "user" = some user ∧
    aget (classify_task dft Option.none text user channel) "context" =
      some (PyVal.dict [("channel", channel)]) := by
  refine ⟨?_, ?_, ?_, ?_, ?_, ?_, ?_, ?_⟩
  · intro h1
    simp [classify_task, fallbackTask, ruleType, aget, h1]
  · intro h1 h2
    simp [classify_task, fallbackTask, ruleType, aget, h1, h2]
  · intro h1 h2 h3
    simp [classify_task, fallbackTask, ruleType, aget, h1, h2, h3]
  · intro h1 h2 h3 h4
    simp [classify_task, fallbackTask, ruleType, aget, h1, h2, h3, h4]
  · intro h1 h2 h3 h4
    simp [classify_task, fallbackTask, ruleType, aget, h1, h2, h3, h4]
  · simp [classify_task, fallbackTask, aget]
  · simp [classify_task, fallbackTask, aget]
  · simp [classify_task, fallbackTask, aget]

/-- C9 witness: the fallback mapping applied at concrete texts hitting the
first and the default branch. -/
theorem C9_witness :
    aget (classify_task "llm_response" Option.none "Search the web"
      (PyVal.str "u1") (PyVal.str "c1")) "type" = some (PyVal.str "web_search") ∧
    aget (classify_task "llm_response" Option.none "hello there"
      (PyVal.str "u1") (PyVal.str "c1")) "type" = some (PyVal.str "llm_response") ∧
    aget (classify_task "llm_response" Option.none "Search the web"
      (PyVal.str "u1") (PyVal.str "c1")) "payload" =
      some (PyVal.dict [("query", PyVal.str "Search the web")]) :=
  ⟨(C9_classifier_fallback "llm_response" "Search the web"
      (PyVal.str "u1") (PyVal.str "c1")).1 rfl,
   (C9_classifier_fallback "llm_response" "hello there"
      (PyVal.str "u1") (PyVal.str "c1")).2.2.2.2.1 rfl rfl rfl rfl,
   (C9_classifier_fallback "llm_response" "Search the web"
      (PyVal.str "u1") (PyVal.str "c1")).2.2.2.2.2.1⟩

/-- C10: after the startup wiring of instance.py, every registered type id
maps to a non-null handler; the single late-bound slot `llm_response`
starts empty and is filled right after `Orchestrator` construction with the
Gemini-backed agent when the oracle is available and with the dummy
fallback agent otherwise, so a lookup of the default type finds an agent in
either case. -/
theorem C10_wiring :
    (∀ (g : Bool) (k : String) (v : Option AgentTag),
       aget (wireAgents g) k = some v → v.isSome = true) ∧
    (∀ g : Bool, aget (wireAgents g) "llm_response" =
       some (some (if g then AgentTag.llmGemini else AgentTag.llmDummy))) ∧
    aget instanceAgents "llm_response" = some Option.none := by
  refine ⟨?_, ?_, rfl⟩
  · intro g k v h
    cases g <;>
      · simp only [wireAgents, instanceAgents, aset, aget] at h
        split_ifs at h <;> (cases h; rfl)
  · intro g
    cases g <;> rfl

/-- C10 witness: the wiring theorem applied at the Gemini-available case
and a statically bound slot. -/
theorem C10_witness :
    (some AgentTag.webSearch).isSome = true ∧
    aget (wireAgents true) "llm_response" = some (some AgentTag.llmGemini) :=
  ⟨C10_wiring.1 true "web_search" (some AgentTag.webSearch) rfl,
   by simpa using C10_wiring.2.1 true⟩

/-- C3 counterexample: in a sequential run whose second template sub-task
carries a payload dict, the chaining injection writes through the shallow
`dict.copy()` into that template's payload: after step 2 the stored template
equals the injected dispatch dict (its payload now holds the chaining key),
not the original template. -/
theorem C3_counterexample :
    canRunConcurrent
      [[("type", PyVal.str "a"), ("payload", PyVal.dict [])],
       [("type", PyVal.str "c"), ("payload", PyVal.dict [("input", PyVal.str "x")])]] =
      Except.ok false ∧
    (seqTemplates (runSeqAux
        [("a", fun _ => HOut.ok [("r", PyVal.pyint 1)]),
         ("c", fun _ => HOut.ok [("r", PyVal.pyint 2)])]
        0 Option.none
        [[("type", PyVal.str "a"), ("payload", PyVal.dict [])],
         [("type", PyVal.str "c"), ("payload", PyVal.dict [("input", PyVal.str "x")])]])).get? 1 =
      some [("type", PyVal.str "c"),
            ("payload", PyVal.dict [("input", PyVal.dict [("r", PyVal.pyint 1)])])] ∧
    some ([("type", PyVal.str "c"),
           ("payload", PyVal.dict [("input", PyVal.dict [("r", PyVal.pyint 1)])])] : PyDict) ≠
      some ([("type", PyVal.str "c"),
             ("payload", PyVal.dict [("input", PyVal.str "x")])] : PyDict) := by
  refine ⟨rfl, rfl, ?_⟩
  simp

/-- C3 (amended): the injection copies only the outer sub-task mapping
(`dict.copy` is shallow).  When the template carries a dict payload, the
dispatched sub-task and the post-injection template are one and the same
value — the template's aliased payload mapping receives the chaining key —
and only when the template lacks a `payload` key is a fresh mapping created,
leaving the template unmutated. -/
theorem C3_amended (st : PyDict) (prev : PyDict) :
    (aget st "payload" = Option.none →
      chainInject st prev =
        Except.ok (aset st "payload" (PyVal.dict [("input", PyVal.dict prev)]), st)) ∧
    (∀ p, aget st "payload" = some (PyVal.dict p) →
      chainInject st prev =
        Except.ok (aset st "payload" (PyVal.dict (aset p "input" (PyVal.dict prev))),
                   aset st "payload" (PyVal.dict (aset p "input" (PyVal.dict prev)))) ∧
      aget (aset p "input" (PyVal.dict prev)) "input" = some (PyVal.dict prev)) := by
  constructor
  · intro h
    simp [chainInject, h]
  · intro p h
    exact ⟨by simp [chainInject, h], aget_aset_self p "input" (PyVal.dict prev)⟩

/-- C3 witness: the amended injection theorem applied at a template whose
payload dict holds one unrelated key. -/
theorem C3_witness :
    chainInject [("payload", PyVal.dict [("k", PyVal.str "v")])] [("r", PyVal.pyint 1)] =
      Except.ok
        (aset [("payload", PyVal.dict [("k", PyVal.str "v")])] "payload"
           (PyVal.dict (aset [("k", PyVal.str "v")] "input" (PyVal.dict [("r", PyVal.pyint 1)]))),
         aset [("payload", PyVal.dict [("k", PyVal.str "v")])] "payload"
           (PyVal.dict (aset [("k", PyVal.str "v")] "input" (PyVal.dict [("r", PyVal.pyint 1)])))) ∧
    aget (aset [("k", PyVal.str "v")] "input" (PyVal.dict [("r", PyVal.pyint 1)])) "input" =
      some (PyVal.dict [("r", PyVal.pyint 1)]) :=
  (C3_amended [("payload", PyVal.dict [("k", PyVal.str "v")])] [("r", PyVal.pyint 1)]).2
    [("k", PyVal.str "v")] rfl

/-- Every sub-task of a sequential run yields exactly one trace entry: the
run never short-circuits, whatever mixture of successes and failures. -/
theorem runSeqAux_length (ag : AgentMap) (sts : List PyDict) :
    ∀ (idx : Nat) (prev : Option PyDict) (o : SeqOut),
    runSeqAux ag idx prev sts = Except.ok o →
    o.results.length = sts.length ∧ o.dispatched.length = sts.length := by
  induction sts with
  | nil =>
      intro idx prev o h
      cases h
      exact ⟨rfl, rfl⟩
  | cons st rest ih =>
      intro idx prev o h
      cases hl : lookupAgent ag (aget st "type") with
      | none =>
          simp only [runSeqAux, hl] at h
          cases hr : runSeqAux ag (idx + 1) prev rest with
          | error e => rw [hr] at h; simp [Except.map] at h
          | ok o2 =>
              rw [hr] at h
              simp only [Except.map] at h
              cases h
              obtain ⟨h1, h2⟩ := ih (idx + 1) prev o2 hr
              exact ⟨by simp [seqCons, h1], by simp [seqCons, h2]⟩
      | some f =>
          cases hi : injectStep idx prev st with
          | error e => simp [runSeqAux, hl, hi] at h
          | ok pr =>
              obtain ⟨st2, tAfter⟩ := pr
              cases ho : f st2 with
              | ok r =>
                  cases hr : runSeqAux ag (idx + 1) (some r) rest with
                  | error e => simp [runSeqAux, hl, hi, ho, hr, Except.map] at h
                  | ok o2 =>
                      simp only [runSeqAux, hl, hi, ho, hr, Except.map] at h
                      cases h
                      obtain ⟨h1, h2⟩ := ih (idx + 1) (some r) o2 hr
                      exact ⟨by simp [seqCons, h1], by simp [seqCons, h2]⟩
              | exc m =>
                  cases hr : runSeqAux ag (idx + 1) Option.none rest with
                  | error e => simp [runSeqAux, hl, hi, ho, hr, Except.map] at h
                  | ok o2 =>
                      simp only [runSeqAux, hl, hi, ho, hr, Except.map] at h
                      cases h
                      obtain ⟨h1, h2⟩ := ih (idx + 1) Option.none o2 hr
                      exact ⟨by simp [seqCons, h1], by simp [seqCons, h2]⟩

/-- C4 (amended): a failing step is recorded as an error Result and never
short-circuits the run (the trace has exactly one entry per sub-task).
After a handler exception the loop clears `prev_result`, so the next step is
dispatched without an injected chaining key; but after an unregistered-type
failure `prev_result` is left unchanged, so the next step is dispatched with
the most recent earlier Result still injected under the chaining key —
contrary to the claim's blanket "no chaining key after any failure". -/
theorem C4_amended :
    (∀ (ag : AgentMap) (sts : List PyDict) (idx : Nat) (prev : Option PyDict) (o : SeqOut),
       runSeqAux ag idx prev sts = Except.ok o →
       o.results.length = sts.length ∧ o.dispatched.length = sts.length) ∧
    (∀ (ag : AgentMap) (idx : Nat) (prev : Option PyDict) (st : PyDict) (rest : List PyDict),
       lookupAgent ag (aget st "type") = Option.none →
       runSeqAux ag idx prev (st :: rest) =
         (runSeqAux ag (idx + 1) prev rest).map
           (seqCons (noAgentResult (aget st "type")) Option.none st)) ∧
    (∀ (ag : AgentMap) (idx : Nat) (prev : Option PyDict) (st : PyDict)
       (rest : List PyDict) (f : PyDict → HOut) (st2 tAfter : PyDict) (m : String),
       lookupAgent ag (aget st "type") = some f →
       injectStep idx prev st = Except.ok (st2, tAfter) →
       f st2 = HOut.exc m →
       runSeqAux ag idx prev (st :: rest) =
         (runSeqAux ag (idx + 1) Option.none rest).map
           (seqCons (excResult (aget st "type") m st2) (some st2) tAfter)) := by
  refine ⟨runSeqAux_length, ?_, ?_⟩
  · intro ag idx prev st rest hl
    simp [runSeqAux, hl]
  · intro ag idx prev st rest f st2 tAfter m hl hi ho
    simp [runSeqAux, hl, hi, ho]

/-- C4 counterexample: three sequential sub-tasks where step 2's type is
unregistered.  Step 2's failure is recorded, step 3 is still dispatched
(both as the claim says) — but step 3's dispatched payload DOES contain the
chaining key, bound to step 1's Result, because the unregistered-type branch
leaves `prev_result` unchanged (orchestrator.py lines 255-258). -/
theorem C4_counterexample :
    canRunConcurrent
      [[("type", PyVal.str "a"), ("payload", PyVal.dict [])],
       [("type", PyVal.str "b"), ("payload", PyVal.dict [])],
       [("type", PyVal.str "c"), ("payload", PyVal.dict [("input", PyVal.str "x")])]] =
      Except.ok false ∧
    (seqResults (runSeqAux
        [("a", fun _ => HOut.ok [("r1", PyVal.pyint 1)]),
         ("c", fun _ => HOut.ok [("r3", PyVal.pyint 3)])]
        0 Option.none
        [[("type", PyVal.str "a"), ("payload", PyVal.dict [])],
         [("type", PyVal.str "b"), ("payload", PyVal.dict [])],
         [("type", PyVal.str "c"), ("payload", PyVal.dict [("input", PyVal.str "x")])]])).get? 1 =
      some [("error", PyVal.str "No agent for type: b")] ∧
    dispatchedPayloadKey (runSeqAux
        [("a", fun _ => HOut.ok [("r1", PyVal.pyint 1)]),
         ("c", fun _ => HOut.ok [("r3", PyVal.pyint 3)])]
        0 Option.none
        [[("type", PyVal.str "a"), ("payload", PyVal.dict [])],
         [("type", PyVal.str "b"), ("payload", PyVal.dict [])],
         [("type", PyVal.str "c"), ("payload", PyVal.dict [("input", PyVal.str "x")])]])
      2 "input" = some (PyVal.dict [("r1", PyVal.pyint 1)]) := ⟨rfl, rfl, rfl⟩

/-- C4 witness: the amended theorem's no-short-circuit part applied at a
one-sub-task run whose only step fails the registry lookup. -/
theorem C4_witness :
    (SeqOut.mk [[("error", PyVal.str "No agent for type: x")]] [Option.none]
       [[("type", PyVal.str "x")]] Option.none).results.length =
      ([[("type", PyVal.str "x")]] : List PyDict).length ∧
    (SeqOut.mk [[("error", PyVal.str "No agent for type: x")]] [Option.none]
       [[("type", PyVal.str "x")]] Option.none).dispatched.length =
      ([[("type", PyVal.str "x")]] : List PyDict).length :=
  C4_amended.1 [] [[("type", PyVal.str "x")]] 0 Option.none
    (SeqOut.mk [[("error", PyVal.str "No agent for type: x")]] [Option.none]
       [[("type", PyVal.str "x")]] Option.none) rfl

/-- C6: in a sequential run of three sub-tasks in which every step finds its
agent and every handler returns normally, step 2 is dispatched with the
chaining key bound to exactly step 1's Result, step 3 with the chaining key
bound to exactly step 2's Result (replacing, never accumulating — all other
payload keys are passed through unchanged), and the top-level return of the
execution equals step 3's Result exactly. -/
theorem C6_sequential_chaining
    (ag : AgentMap) (t1 t2 t3 : PyDict) (p2 p3 : List (String × PyVal))
    (r1 r2 r3 : PyDict) (f1 f2 f3 : PyDict → HOut)
    (hseq : canRunConcurrent [t1, t2, t3] = Except.ok false)
    (hp2 : aget t2 "payload" = some (PyVal.dict p2))
    (hp3 : aget t3 "payload" = some (PyVal.dict p3))
    (hl1 : lookupAgent ag (aget t1 "type") = some f1)
    (hl2 : lookupAgent ag (aget t2 "type") = some f2)
    (hl3 : lookupAgent ag (aget t3 "type") = some f3)
    (hr1 : f1 t1 = HOut.ok r1)
    (hr2 : f2 (aset t2 "payload" (PyVal.dict (aset p2 "input" (PyVal.dict r1)))) = HOut.ok r2)
    (hr3 : f3 (aset t3 "payload" (PyVal.dict (aset p3 "input" (PyVal.dict r2)))) = HOut.ok r3)
    (he1 : hasError r1 = false) (he2 : hasError r2 = false) (he3 : hasError r3 = false) :
    dispatchedPayloadKey (runSeqAux ag 0 Option.none [t1, t2, t3]) 1 "input" =
      some (PyVal.dict r1) ∧
    dispatchedPayloadKey (runSeqAux ag 0 Option.none [t1, t2, t3]) 2 "input" =
      some (PyVal.dict r2) ∧
    (∀ k, k ≠ "input" →
      dispatchedPayloadKey (runSeqAux ag 0 Option.none [t1, t2, t3]) 1 k = aget p2 k) ∧
    executeSubTasks ag [t1, t2, t3] = Except.ok r3 := by
  have hrun : runSeqAux ag 0 Option.none [t1, t2, t3] =
      Except.ok
        ⟨[r1, r2, r3],
         [some t1,
          some (aset t2 "payload" (PyVal.dict (aset p2 "input" (PyVal.dict r1)))),
          some (aset t3 "payload" (PyVal.dict (aset p3 "input" (PyVal.dict r2))))],
         [t1,
          aset t2 "payload" (PyVal.dict (aset p2 "input" (PyVal.dict r1))),
          aset t3 "payload" (PyVal.dict (aset p3 "input" (PyVal.dict r2)))],
         some r3⟩ := by
    simp [runSeqAux, hl1, hl2, hl3, hr1, hr2, hr3, injectStep, chainInject, hp2, hp3,
      Except.map, seqCons]
  refine ⟨?_, ?_, ?_, ?_⟩
  · rw [hrun]
    simp [dispatchedPayloadKey, seqDispatched, aget_aset_self]
  · rw [hrun]
    simp [dispatchedPayloadKey, seqDispatched, aget_aset_self]
  · intro k hk
    rw [hrun]
    simp [dispatchedPayloadKey, seqDispatched, aget_aset_self, aget_aset_ne _ _ _ _ hk]
  · simp [executeSubTasks, strategyConcurrent, hseq, Except.map, hrun, aggregate,
      he1, he2, he3, List.getLastD]

/-- C6 witness: the chaining theorem applied at three concrete sub-tasks
(the second pre-declares a dependency, so the run is sequential) with three
concrete always-succeeding agents. -/
theorem C6_witness :
    dispatchedPayloadKey (runSeqAux
        [("a", fun _ => HOut.ok [("r1", PyVal.pyint 1)]),
         ("b", fun _ => HOut.ok [("r2", PyVal.pyint 2)]),
         ("c", fun _ => HOut.ok [("r3", PyVal.pyint 3)])]
        0 Option.none
        [[("type", PyVal.str "a"), ("payload", PyVal.dict [])],
         [("type", PyVal.str "b"), ("payload", PyVal.dict [("input", PyVal.str "x")])],
         [("type", PyVal.str "c"), ("payload", PyVal.dict [])]])
      1 "input" = some (PyVal.dict [("r1", PyVal.pyint 1)]) ∧
    dispatchedPayloadKey (runSeqAux
        [("a", fun _ => HOut.ok [("r1", PyVal.pyint 1)]),
         ("b", fun _ => HOut.ok [("r2", PyVal.pyint 2)]),
         ("c", fun _ => HOut.ok [("r3", PyVal.pyint 3)])]
        0 Option.none
        [[("type", PyVal.str "a"), ("payload", PyVal.dict [])],
         [("type", PyVal.str "b"), ("payload", PyVal.dict [("input", PyVal.str "x")])],
         [("type", PyVal.str "c"), ("payload", PyVal.dict [])]])
      2 "input" = some (PyVal.dict [("r2", PyVal.pyint 2)]) ∧
    executeSubTasks
        [("a", fun _ => HOut.ok [("r1", PyVal.pyint 1)]),
         ("b", fun _ => HOut.ok [("r2", PyVal.pyint 2)]),
         ("c", fun _ => HOut.ok [("r3", PyVal.pyint 3)])]
        [[("type", PyVal.str "a"), ("payload", PyVal.dict [])],
         [("type", PyVal.str "b"), ("payload", PyVal.dict [("input", PyVal.str "x")])],
         [("type", PyVal.str "c"), ("payload", PyVal.dict [])]] =
      Except.ok [("r3", PyVal.pyint 3)] := by
  have h := C6_sequential_chaining
    [("a", fun _ => HOut.ok [("r1", PyVal.pyint 1)]),
     ("b", fun _ => HOut.ok [("r2", PyVal.pyint 2)]),
     ("c", fun _ => HOut.ok [("r3", PyVal.pyint 3)])]
    [("type", PyVal.str "a"), ("payload", PyVal.dict [])]
    [("type", PyVal.str "b"), ("payload", PyVal.dict [("input", PyVal.str "x")])]
    [("type", PyVal.str "c"), ("payload", PyVal.dict [])]
    [("input", PyVal.str "x")] []
    [("r1", PyVal.pyint 1)] [("r2", PyVal.pyint 2)] [("r3", PyVal.pyint 3)]
    (fun _ => HOut.ok [("r1", PyVal.pyint 1)])
    (fun _ => HOut.ok [("r2", PyVal.pyint 2)])
    (fun _ => HOut.ok [("r3", PyVal.pyint 3)])
    rfl rfl rfl rfl rfl rfl rfl rfl rfl rfl rfl rfl
  exact ⟨h.1, h.2.1, h.2.2.2⟩
